import Mathlib

/-!
Shallow embedding, in Lean 4, of the client-side validation, form gating,
and error-reporting code of the ride-sharing CRUD application
(frontend/src/components/utils/validation.js, frontend/src/services/api.js,
and the RideForm / PaymentForm / VehicleForm components).

Strings are modelled as Lean strings (lists of characters); JavaScript
numbers are modelled exactly over the rationals, identifying a number with
the value of its decimal rendering; the decimal fragment of the parseFloat,
Number and parseInt coercions is implemented below.  Hexadecimal / octal /
binary literal forms and the Infinity forms are outside the modelled
fragment (the latter are rejected by isFinite in every use in the source,
so every modelled predicate agrees with the source on them).
-/

/-- Whitespace characters recognized when JavaScript trims a string or
skips blanks before parsing a number (the ASCII fragment). -/
def isJsWS (c : Char) : Bool :=
  c = ' ' || c = '\t' || c = '\n' || c = '\r'

/-- Numeric value of a list of decimal digit characters (most significant
first). -/
def digitsToNat (ds : List Char) : Nat :=
  ds.foldl (fun a c => 10 * a + (c.toNat - 48)) 0

/-- Strip one optional leading sign, returning whether it was a minus sign
and the remaining characters. -/
def splitSign (cs : List Char) : Bool × List Char :=
  match cs with
  | [] => (false, [])
  | c :: r => if c = '-' then (true, r) else if c = '+' then (false, r) else (false, c :: r)

/-- Try to read an exponent part (e or E, an optional sign, then at least
one digit) at the head of the input.  On a malformed exponent nothing is
consumed, matching the backtracking of JavaScript parseFloat. -/
def tryParseExp (cs : List Char) : Option (Bool × List Char) × List Char :=
  match cs with
  | [] => (none, [])
  | c :: r =>
    if c = 'e' || c = 'E' then
      let p := splitSign r
      let eds := p.2.takeWhile Char.isDigit
      if eds = [] then (none, c :: r)
      else (some (p.1, eds), p.2.dropWhile Char.isDigit)
    else (none, c :: r)

/-- Syntactic decomposition of a decimal numeric literal: sign, integer
digits, fractional digits, whether a decimal point was present, and an
optional exponent (sign and digits). -/
structure DecLit where
  neg : Bool
  intDigits : List Char
  fracDigits : List Char
  hasDot : Bool
  expPart : Option (Bool × List Char)

/-- Parse the longest decimal literal at the head of the input, returning
it and the unconsumed rest; fails when no digit occurs before the
exponent position, as JavaScript parseFloat does. -/
def parseDecHead (cs : List Char) : Option (DecLit × List Char) :=
  let p := splitSign cs
  let ip := p.2.takeWhile Char.isDigit
  let rest1 := p.2.dropWhile Char.isDigit
  match rest1 with
  | [] => if ip = [] then none else some (⟨p.1, ip, [], false, none⟩, [])
  | c :: r2 =>
    if c = '.' then
      let fp := r2.takeWhile Char.isDigit
      let rest2 := r2.dropWhile Char.isDigit
      if ip = [] && fp = [] then none
      else
        let ex := tryParseExp rest2
        some (⟨p.1, ip, fp, true, ex.1⟩, ex.2)
    else
      if ip = [] then none
      else
        let ex := tryParseExp (c :: r2)
        some (⟨p.1, ip, [], false, ex.1⟩, ex.2)

/-- Signed exponent of a parsed decimal literal. -/
def DecLit.exp (d : DecLit) : Int :=
  match d.expPart with
  | none => 0
  | some p => if p.1 then -(digitsToNat p.2 : Int) else (digitsToNat p.2 : Int)

/-- Rational value of a parsed decimal literal,
sign * (intDigits.fracDigits) * 10 ^ exp, built as one normalized
fraction so that it evaluates by kernel reduction. -/
def DecLit.val (d : DecLit) : ℚ :=
  let k := d.fracDigits.length
  let n0 : Int := (digitsToNat d.intDigits * 10 ^ k + digitsToNat d.fracDigits : Nat)
  let n1 : Int := if d.neg then -n0 else n0
  mkRat (n1 * 10 ^ d.exp.toNat) (10 ^ (k + (-d.exp).toNat))

/-- Model of JavaScript parseFloat on the decimal fragment: skip leading
whitespace and evaluate the longest decimal-literal head; none models NaN. -/
def jsParseFloat (s : String) : Option ℚ :=
  match parseDecHead (s.toList.dropWhile isJsWS) with
  | some dr => some dr.1.val
  | none => none

/-- Characters of a string with leading and trailing whitespace removed. -/
def trimList (cs : List Char) : List Char :=
  ((cs.dropWhile isJsWS).reverse.dropWhile isJsWS).reverse

/-- Model of the JavaScript Number coercion on strings (the decimal
fragment): after trimming, the empty string is 0, and otherwise the whole
string must be a single decimal literal; none models NaN together with the
non-finite forms. -/
def jsToNumber (s : String) : Option ℚ :=
  match trimList s.toList with
  | [] => some 0
  | c :: r =>
    match parseDecHead (c :: r) with
    | some dr => if dr.2 = [] then some dr.1.val else none
    | none => none

/-- Model of JavaScript parseInt with the default radix 10: skip
whitespace, optional sign, then the longest run of digits; none models
NaN. -/
def jsParseInt (s : String) : Option Int :=
  let p := splitSign (s.toList.dropWhile isJsWS)
  let ds := p.2.takeWhile Char.isDigit
  if ds = [] then none
  else some (if p.1 then -(digitsToNat ds : Int) else (digitsToNat ds : Int))

/-- validation.js isValidNumber: a non-empty input whose parseFloat is not
NaN and whose Number coercion is finite. -/
def isValidNumber (value : String) : Bool :=
  if value = "" then false
  else (jsParseFloat value).isSome && (jsToNumber value).isSome

/-- validation.js isValidPositiveNumber: isValidNumber holds and
parseFloat(value) is strictly positive. -/
def isValidPositiveNumber (value : String) : Bool :=
  isValidNumber value &&
    (match jsParseFloat value with
     | some q => decide (0 < q)
     | none => false)

/-- Characters of a list after its first dot, if any: the substring taken
by indexOf and substring inside hasValidDecimals. -/
def afterFirstDot : List Char → Option (List Char)
  | [] => none
  | c :: r => if c = '.' then some r else afterFirstDot r

/-- validation.js hasValidDecimals: inspects the string rendering of the
value for a decimal point and counts the characters after it. -/
def hasValidDecimals (value : String) (maxDecimals : Nat) : Bool :=
  if !(isValidNumber value) then false
  else
    match afterFirstDot value.toList with
    | none => true
    | some ds => decide (ds.length ≤ maxDecimals)

/-- validation.js isValidYear with its two bounds explicit (the source
defaults them to 1900 and the current year plus one). -/
def isValidYear (year : String) (minYear maxYear : Int) : Bool :=
  if !(isValidNumber year) then false
  else
    match jsParseInt year with
    | some n => decide (minYear ≤ n) && decide (n ≤ maxYear)
    | none => false

/-- validation.js isValidRating: isValidNumber holds and parseInt(rating)
lies in [1, 5] (comparisons against NaN are false). -/
def isValidRating (rating : String) : Bool :=
  if !(isValidNumber rating) then false
  else
    match jsParseInt rating with
    | some n => decide (1 ≤ n) && decide (n ≤ 5)
    | none => false

/-- validation.js isRequired on strings: nonempty after trimming. -/
def isRequired (value : String) : Bool :=
  decide (0 < (trimList value.toList).length)

/-- Character class of the local part of the email regex. -/
def isLocalChar (c : Char) : Bool :=
  c.isAlphanum || c = '.' || c = '_' || c = '%' || c = '+' || c = '-'

/-- Character class of the domain part of the email regex. -/
def isDomainChar (c : Char) : Bool :=
  c.isAlphanum || c = '.' || c = '-'

/-- Split a list at the first occurrence of a character, if any, dropping
that occurrence. -/
def splitAtFirst (t : Char) : List Char → Option (List Char × List Char)
  | [] => none
  | c :: r =>
    if c = t then some ([], r)
    else
      match splitAtFirst t r with
      | some p => some (c :: p.1, p.2)
      | none => none

/-- Split a list at the last occurrence of a character, if any, dropping
that occurrence. -/
def splitAtLast (t : Char) (cs : List Char) : Option (List Char × List Char) :=
  match splitAtFirst t cs.reverse with
  | some p => some (p.2.reverse, p.1.reverse)
  | none => none

/-- Decision procedure for the anchored email regular expression of
validation.js over the classes above: the local part (everything before
the first at sign, the only possible split point since the local class
excludes at signs) must be nonempty over the local class, and the domain
must split at its last dot (the top-level label runs to the anchored end,
so it must be all letters and admits no later dot) into a nonempty
domain-class part and at least two letters. -/
def emailMatches (cs : List Char) : Bool :=
  match splitAtFirst '@' cs with
  | none => false
  | some lp =>
    !(lp.1 = []) && lp.1.all isLocalChar &&
      (match splitAtLast '.' lp.2 with
       | none => false
       | some dp =>
         !(dp.1 = []) && dp.1.all isDomainChar &&
           decide (2 ≤ dp.2.length) && dp.2.all Char.isAlpha)

/-- validation.js isValidEmail on strings: falsy inputs are rejected, then
the trimmed input is matched against the email regular expression. -/
def isValidEmail (email : String) : Bool :=
  if email = "" then false
  else emailMatches (trimList email.toList)

/-- validation.js isValidPhoneNumber on strings: strip non-digit
characters and require 10 or 11 digits. -/
def isValidPhoneNumber (phone : String) : Bool :=
  if phone = "" then false
  else
    let ds := phone.toList.filter Char.isDigit
    decide (10 ≤ ds.length) && decide (ds.length ≤ 11)

/-- Leap-year rule of the Gregorian calendar. -/
def isLeap (y : Nat) : Bool :=
  (y % 4 = 0 && !(y % 100 = 0)) || y % 400 = 0

/-- Number of days in a month of the Gregorian calendar. -/
def daysInMonth (y m : Nat) : Nat :=
  if m = 2 then (if isLeap y then 29 else 28)
  else if m = 4 || m = 6 || m = 9 || m = 11 then 30 else 31

/-- Days from the civil epoch 1970-01-01 of a Gregorian date with year at
least 1 (the standard days-from-civil computation). -/
def daysFromCivil (y m d : Nat) : Int :=
  let y1 := if m ≤ 2 then y - 1 else y
  let era := y1 / 400
  let yoe := y1 % 400
  let mp := (m + 9) % 12
  let doy := (153 * mp + 2) / 5 + d - 1
  let doe := yoe * 365 + yoe / 4 - yoe / 100 + doy
  ((era * 146097 + doe : Nat) : Int) - 719468

/-- Decimal value of a digit character. -/
def dval (c : Char) : Nat := c.toNat - 48

/-- Both characters are decimal digits. -/
def isDigit2 (a b : Char) : Bool := a.isDigit && b.isDigit

/-- Two-digit decimal value. -/
def val2 (a b : Char) : Nat := 10 * dval a + dval b

/-- Time-of-day tail of a datetime-local string: empty, THH:MM or
THH:MM:SS, returned as seconds into the day. -/
def parseTimeTail : List Char → Option Nat
  | [] => some 0
  | t :: h1 :: h2 :: c1 :: m1 :: m2 :: rest =>
    if t = 'T' && isDigit2 h1 h2 && c1 = ':' && isDigit2 m1 m2
        && decide (val2 h1 h2 ≤ 23) && decide (val2 m1 m2 ≤ 59) then
      match rest with
      | [] => some (3600 * val2 h1 h2 + 60 * val2 m1 m2)
      | c2 :: s1 :: s2 :: [] =>
        if c2 = ':' && isDigit2 s1 s2 && decide (val2 s1 s2 ≤ 59) then
          some (3600 * val2 h1 h2 + 60 * val2 m1 m2 + val2 s1 s2)
        else none
      | _ => none
    else none
  | _ => none

/-- Model of new Date(s).getTime(), in seconds, on the ISO date and
datetime-local formats produced by the forms: YYYY-MM-DD with an optional
THH:MM or THH:MM:SS tail and calendar-valid fields; none models an
Invalid Date.  Both forms are placed on one time scale: the forms only
compare values of the same format, for which the zone offset cancels. -/
def jsDateParse (s : String) : Option Int :=
  match s.toList with
  | y1 :: y2 :: y3 :: y4 :: c1 :: m1 :: m2 :: c2 :: d1 :: d2 :: rest =>
    if y1.isDigit && y2.isDigit && y3.isDigit && y4.isDigit
        && c1 = '-' && isDigit2 m1 m2 && c2 = '-' && isDigit2 d1 d2 then
      let y := 1000 * dval y1 + 100 * dval y2 + 10 * dval y3 + dval y4
      let mo := val2 m1 m2
      let da := val2 d1 d2
      if decide (1 ≤ mo) && decide (mo ≤ 12) && decide (1 ≤ da)
          && decide (da ≤ daysInMonth y mo) then
        match parseTimeTail rest with
        | some secs => some (86400 * daysFromCivil y mo da + (secs : Int))
        | none => none
      else none
    else none
  | _ => none

/-- validation.js isAfter: falsy inputs are rejected; otherwise the two
Date values are compared, the end strictly greater than the start
(comparisons against an Invalid Date are false). -/
def isAfter (startDatetime endDatetime : String) : Bool :=
  if startDatetime = "" || endDatetime = "" then false
  else
    match jsDateParse startDatetime, jsDateParse endDatetime with
    | some ts, some te => decide (ts < te)
    | _, _ => false

/-!
String-or-number values.  The validation predicates are documented over
string or number inputs.  A JavaScript number is modelled by its toString
rendering: every use the source makes of a number input (parseFloat,
parseInt, toString inside hasValidDecimals, the isFinite coercion,
truthiness) factors through that rendering, and toString sending both
zeroes to the same rendering keeps truthiness faithful.
-/

/-- A string value or a number value (the latter by its rendering). -/
inductive JSVal where
  | vstr : String → JSVal
  | vnum : String → JSVal

/-- Truthiness: the empty string, 0 and NaN are the falsy inputs. -/
def jsFalsyVal : JSVal → Bool
  | .vstr s => s = ""
  | .vnum r => r = "0" || r = "NaN"

/-- The toString rendering of a value. -/
def JSVal.render : JSVal → String
  | .vstr s => s
  | .vnum r => r

/-- isValidNumber over a string-or-number value (the strict equality
against the empty string can only fire on strings). -/
def isValidNumberV : JSVal → Bool
  | .vstr s => isValidNumber s
  | .vnum r => (jsParseFloat r).isSome && (jsToNumber r).isSome

/-- isValidPositiveNumber over a string-or-number value. -/
def isValidPositiveNumberV (v : JSVal) : Bool :=
  isValidNumberV v &&
    (match jsParseFloat v.render with
     | some q => decide (0 < q)
     | none => false)

/-- hasValidDecimals over a string-or-number value: the check inspects the
toString rendering for a decimal point. -/
def hasValidDecimalsV (v : JSVal) (maxDecimals : Nat) : Bool :=
  if !(isValidNumberV v) then false
  else
    match afterFirstDot v.render.toList with
    | none => true
    | some ds => decide (ds.length ≤ maxDecimals)

/-- isValidYear over a string-or-number value. -/
def isValidYearV (v : JSVal) (minYear maxYear : Int) : Bool :=
  if !(isValidNumberV v) then false
  else
    match jsParseInt v.render with
    | some n => decide (minYear ≤ n) && decide (n ≤ maxYear)
    | none => false

/-- isValidRating over a string-or-number value. -/
def isValidRatingV (v : JSVal) : Bool :=
  if !(isValidNumberV v) then false
  else
    match jsParseInt v.render with
    | some n => decide (1 ≤ n) && decide (n ≤ 5)
    | none => false

/-- Date value of a string-or-number argument, in milliseconds: a string
goes through Date parsing, a number is taken as epoch milliseconds (every
finite number yields a valid Date). -/
def jsDateMs : JSVal → Option ℚ
  | .vstr s =>
    match jsDateParse s with
    | some t => some (mkRat (1000 * t) 1)
    | none => none
  | .vnum r => jsToNumber r

/-- isAfter over string-or-number values. -/
def isAfterV (a b : JSVal) : Bool :=
  if jsFalsyVal a || jsFalsyVal b then false
  else
    match jsDateMs a, jsDateMs b with
    | some x, some y => decide (x < y)
    | _, _ => false

/-- Message of the TypeError raised when trim is called on a number. -/
def trimTypeErrorMsg : String := "TypeError: email.trim is not a function"

/-- Message of the TypeError raised when replace is called on a number. -/
def replaceTypeErrorMsg : String := "TypeError: phone.replace is not a function"

/-- isValidEmail over a string-or-number value.  A falsy input returns
false at the guard, but on a truthy number the call email.trim() throws a
TypeError, because numbers have no trim method. -/
def isValidEmailV : JSVal → Except String Bool
  | .vstr s => .ok (isValidEmail s)
  | .vnum r => if r = "0" || r = "NaN" then .ok false else .error trimTypeErrorMsg

/-- isValidPhoneNumber over a string-or-number value.  A falsy input
returns false at the guard, but on a truthy number the call
phone.replace() throws a TypeError, because numbers have no replace
method. -/
def isValidPhoneNumberV : JSVal → Except String Bool
  | .vstr s => .ok (isValidPhoneNumber s)
  | .vnum r => if r = "0" || r = "NaN" then .ok false else .error replaceTypeErrorMsg

/-- The pattern list is an initial segment of the character list. -/
def listStartsWith : List Char → List Char → Bool
  | _, [] => true
  | [], _ :: _ => false
  | c :: cs, p :: ps => c = p && listStartsWith cs ps

/-- The pattern occurs contiguously somewhere in the character list (the
includes check of the source, applied after lowercasing). -/
def occursIn (pat : List Char) : List Char → Bool
  | [] => pat.isEmpty
  | c :: cs => listStartsWith (c :: cs) pat || occursIn pat cs

/-- Keyword scanned for by formatForeignKeyError. -/
def kwForeignKey : List Char := "foreign key".toList

/-- Keyword scanned for by formatForeignKeyError. -/
def kwConstraint : List Char := "constraint".toList

/-- Keyword scanned for by formatForeignKeyError. -/
def kwCustomer : List Char := "customer".toList

/-- Keyword scanned for by formatForeignKeyError. -/
def kwDriver : List Char := "driver".toList

/-- Keyword scanned for by formatForeignKeyError. -/
def kwVehicle : List Char := "vehicle".toList

/-- Keyword scanned for by formatForeignKeyError. -/
def kwLocation : List Char := "location".toList

/-- Keyword scanned for by formatForeignKeyError. -/
def kwRide : List Char := "ride".toList

/-- Keyword scanned for by formatForeignKeyError. -/
def kwUnique : List Char := "unique".toList

/-- Keyword scanned for by formatForeignKeyError. -/
def kwDuplicate : List Char := "duplicate".toList

/-- Fixed guidance message of formatForeignKeyError. -/
def msgDeleteCustomer : String :=
  "Cannot delete this customer because they have associated rides. Please delete the rides first."

/-- Fixed guidance message of formatForeignKeyError. -/
def msgDeleteDriver : String :=
  "Cannot delete this driver because they have associated vehicles or rides. Please delete those records first."

/-- Fixed guidance message of formatForeignKeyError. -/
def msgDeleteVehicle : String :=
  "Cannot delete this vehicle because it has associated rides. Please delete the rides first."

/-- Fixed guidance message of formatForeignKeyError. -/
def msgDeleteLocation : String :=
  "Cannot delete this location because it is used in existing rides. Please delete those rides first."

/-- Fixed guidance message of formatForeignKeyError. -/
def msgDeleteRide : String :=
  "Cannot delete this ride because it has associated payments or ratings. Please delete those records first."

/-- Fixed guidance message of formatForeignKeyError. -/
def msgDeleteGeneric : String :=
  "Cannot delete this record because it is referenced by other records. Please delete the dependent records first."

/-- Fixed duplicate-value message of formatForeignKeyError. -/
def msgDuplicateValue : String :=
  "This value already exists in the database. Please use a different value."

/-- Fallback message of formatForeignKeyError on a falsy input. -/
def msgAnErrorOccurred : String := "An error occurred"

/-- Fallback message of getErrorMessage. -/
def msgUnexpectedError : String := "An unexpected error occurred"

/-- Lowercased characters of a message (the toLowerCase of the source,
on the ASCII fragment). -/
def lowerChars (s : String) : List Char := s.toList.map Char.toLower

/-- validation.js formatForeignKeyError: messages mentioning a foreign key
or a constraint are rewritten to fixed guidance (entity-specific when the
message names the entity), unique or duplicate messages to a fixed
duplicate-value message, and any other message is returned unchanged. -/
def formatForeignKeyError (errorMessage : String) : String :=
  if errorMessage = "" then msgAnErrorOccurred
  else if occursIn kwForeignKey (lowerChars errorMessage)
      || occursIn kwConstraint (lowerChars errorMessage) then
    if occursIn kwCustomer (lowerChars errorMessage) then msgDeleteCustomer
    else if occursIn kwDriver (lowerChars errorMessage) then msgDeleteDriver
    else if occursIn kwVehicle (lowerChars errorMessage) then msgDeleteVehicle
    else if occursIn kwLocation (lowerChars errorMessage) then msgDeleteLocation
    else if occursIn kwRide (lowerChars errorMessage) then msgDeleteRide
    else msgDeleteGeneric
  else if occursIn kwUnique (lowerChars errorMessage)
      || occursIn kwDuplicate (lowerChars errorMessage) then
    msgDuplicateValue
  else errorMessage

/-- Data payload of an HTTP error response, with its optional error and
message fields. -/
structure RespData where
  error : Option String
  message : Option String

/-- Response member of an API error; its data member may be absent. -/
structure RespObj where
  data : Option RespData

/-- Object argument of getErrorMessage: optional message and response
members. -/
structure ErrObj where
  message : Option String
  response : Option RespObj

/-- Argument of getErrorMessage: null or undefined, a string, or an
object. -/
inductive JSErrVal where
  | jnull : JSErrVal
  | jstr : String → JSErrVal
  | jobj : ErrObj → JSErrVal

/-- The response-data message branch of getErrorMessage. -/
def errDataMsg (d : RespData) : String :=
  match d.message with
  | some t => if !(t = "") then formatForeignKeyError t else msgUnexpectedError
  | none => msgUnexpectedError

/-- The response branch of getErrorMessage. -/
def errObjRest (o : ErrObj) : String :=
  match o.response with
  | some ro =>
    match ro.data with
    | some d =>
      match d.error with
      | some s => if !(s = "") then formatForeignKeyError s else errDataMsg d
      | none => errDataMsg d
    | none => msgUnexpectedError
  | none => msgUnexpectedError

/-- validation.js getErrorMessage: a falsy argument or an unrecognized
shape falls back to a fixed message; otherwise the first truthy one of
message, the string itself, response.data.error, response.data.message is
passed through formatForeignKeyError. -/
def getErrorMessage : JSErrVal → String
  | .jnull => msgUnexpectedError
  | .jstr s => if s = "" then msgUnexpectedError else formatForeignKeyError s
  | .jobj o =>
    match o.message with
    | some m => if !(m = "") then formatForeignKeyError m else errObjRest o
    | none => errObjRest o

/-- services/api.js: the fixed client-side timeout of the axios instance,
in milliseconds. -/
def apiTimeoutMs : Nat := 10000

/-- Fixed network-error message of the response interceptor. -/
def msgNetworkError : String :=
  "Network error. Please check your connection and ensure the backend server is running."

/-- A server response as the interceptor reads it: status and the error
and details fields of its data. -/
structure AxiosResponse where
  status : Int
  dataError : Option String
  dataDetails : Option String

/-- An axios failure: a server response when one arrived, whether the
request was sent at all (a timeout or network failure has the request but
no response), and the setup error message. -/
structure AxiosFailure where
  response : Option AxiosResponse
  hasRequest : Bool
  message : String

/-- The error object the interceptor rejects with. -/
structure ApiError where
  message : String
  status : Int
  details : Option String

/-- services/api.js response-error interceptor: a server response is
surfaced with its error string (or a fixed fallback) and status; a request
with no response becomes the fixed network-error message with status 0; a
setup error keeps its own message with status -1. -/
def interceptReject (e : AxiosFailure) : ApiError :=
  match e.response with
  | some r =>
    ⟨(match r.dataError with
      | some s => if !(s = "") then s else msgAnErrorOccurred
      | none => msgAnErrorOccurred), r.status, r.dataDetails⟩
  | none =>
    if e.hasRequest then ⟨msgNetworkError, 0, none⟩
    else ⟨(if !(e.message = "") then e.message else msgUnexpectedError), -1, none⟩

/-- Ride form error message. -/
def msgCustomerRequired : String := "Please select a customer"

/-- Ride form error message. -/
def msgDriverRequired : String := "Please select a driver"

/-- Ride form error message. -/
def msgVehicleRequired : String := "Please select a vehicle"

/-- Ride form error message. -/
def msgPickupRequired : String := "Please select a pickup location"

/-- Ride form error message. -/
def msgDropoffRequired : String := "Please select a dropoff location"

/-- Ride form error message. -/
def msgDropoffSame : String := "Dropoff location must be different from pickup location"

/-- Ride form error message. -/
def msgStartRequired : String := "Start time is required"

/-- Ride form error message. -/
def msgArrivalRequired : String := "Arrival time is required"

/-- Ride form error message. -/
def msgArrivalAfter : String := "Arrival time must be after start time"

/-- Fields of the ride form; every input value is a string. -/
structure RideFormData where
  customer_id : String
  driver_id : String
  vehicle_vin : String
  pickup_location : String
  dropoff_location : String
  start_time : String
  arrival_time : String

/-- RideForm validateForm, customer field. -/
def rideCustomerError (f : RideFormData) : Option String :=
  if f.customer_id = "" then some msgCustomerRequired else none

/-- RideForm validateForm, driver field. -/
def rideDriverError (f : RideFormData) : Option String :=
  if f.driver_id = "" then some msgDriverRequired else none

/-- RideForm validateForm, vehicle field. -/
def rideVehicleError (f : RideFormData) : Option String :=
  if f.vehicle_vin = "" then some msgVehicleRequired else none

/-- RideForm validateForm, pickup field. -/
def ridePickupError (f : RideFormData) : Option String :=
  if f.pickup_location = "" then some msgPickupRequired else none

/-- RideForm validateForm, dropoff field: required, and distinct from the
pickup location. -/
def rideDropoffError (f : RideFormData) : Option String :=
  if f.dropoff_location = "" then some msgDropoffRequired
  else if f.pickup_location = f.dropoff_location then some msgDropoffSame
  else none

/-- RideForm validateForm, start-time field. -/
def rideStartError (f : RideFormData) : Option String :=
  if !(isRequired f.start_time) then some msgStartRequired else none

/-- RideForm validateForm, arrival-time field: required, and strictly
after the start time. -/
def rideArrivalError (f : RideFormData) : Option String :=
  if !(isRequired f.arrival_time) then some msgArrivalRequired
  else if !(isAfter f.start_time f.arrival_time) then some msgArrivalAfter
  else none

/-- RideForm validateForm: true exactly when no field recorded an error. -/
def rideValidateForm (f : RideFormData) : Bool :=
  (rideCustomerError f).isNone && (rideDriverError f).isNone &&
    (rideVehicleError f).isNone && (ridePickupError f).isNone &&
    (rideDropoffError f).isNone && (rideStartError f).isNone &&
    (rideArrivalError f).isNone

/-- RideForm handleSubmit: the create or update call is issued only when
validateForm succeeds.  The payload re-renders the two times through Date
in a fixed format, which preserves their instants; the validated fields
are carried unchanged. -/
def rideHandleSubmit (f : RideFormData) : Option RideFormData :=
  if rideValidateForm f then some f else none

/-- Payment form error message. -/
def msgRideRequired : String := "Please select a ride"

/-- Payment form error message. -/
def msgAmountRequired : String := "Amount is required"

/-- Payment form error message. -/
def msgAmountPositive : String := "Amount must be a positive number"

/-- Payment form error message. -/
def msgAmountDecimals : String := "Amount must have at most 2 decimal places"

/-- Payment form error message. -/
def msgAmountMax : String := "Amount cannot exceed $999,999.99"

/-- Payment form error message. -/
def msgMethodRequired : String := "Please select a payment method"

/-- Payment form error message. -/
def msgStatusRequired : String := "Please select a payment status"

/-- Payment form error message. -/
def msgDateRequired : String := "Payment date is required"

/-- The literal bound 999999.99 of the payment form. -/
def paymentMaxAmount : ℚ := mkRat 99999999 100

/-- Fields of the payment form; every input value is a string. -/
structure PaymentFormData where
  ride_id : String
  amount : String
  payment_method : String
  payment_status : String
  payment_date : String

/-- parseFloat(amount) exceeds the bound of the payment form. -/
def amountExceeds (s : String) : Bool :=
  match jsParseFloat s with
  | some q => decide (paymentMaxAmount < q)
  | none => false

/-- PaymentForm validateForm, ride field. -/
def paymentRideError (f : PaymentFormData) : Option String :=
  if f.ride_id = "" then some msgRideRequired else none

/-- PaymentForm validateForm, amount field: required, positive, at most
two decimal places, and within the bound. -/
def paymentAmountError (f : PaymentFormData) : Option String :=
  if !(isRequired f.amount) then some msgAmountRequired
  else if !(isValidPositiveNumber f.amount) then some msgAmountPositive
  else if !(hasValidDecimals f.amount 2) then some msgAmountDecimals
  else if amountExceeds f.amount then some msgAmountMax
  else none

/-- PaymentForm validateForm, method field. -/
def paymentMethodError (f : PaymentFormData) : Option String :=
  if f.payment_method = "" then some msgMethodRequired else none

/-- PaymentForm validateForm, status field. -/
def paymentStatusError (f : PaymentFormData) : Option String :=
  if f.payment_status = "" then some msgStatusRequired else none

/-- PaymentForm validateForm, date field. -/
def paymentDateError (f : PaymentFormData) : Option String :=
  if !(isRequired f.payment_date) then some msgDateRequired else none

/-- PaymentForm validateForm: true exactly when no field recorded an
error. -/
def paymentValidateForm (f : PaymentFormData) : Bool :=
  (paymentRideError f).isNone && (paymentAmountError f).isNone &&
    (paymentMethodError f).isNone && (paymentStatusError f).isNone &&
    (paymentDateError f).isNone

/-- PaymentForm handleSubmit: a create or update call goes out only when
validateForm succeeds; the submitted amount is parseFloat of the field. -/
def paymentHandleSubmit (f : PaymentFormData) : Option (PaymentFormData × Option ℚ) :=
  if paymentValidateForm f then some (f, jsParseFloat f.amount) else none

/-- Vehicle form error message. -/
def msgVinRequired : String := "VIN is required"

/-- Vehicle form error message. -/
def msgVinLength : String := "VIN must be between 11 and 17 characters"

/-- Vehicle form error message. -/
def msgModelRequired : String := "Model is required"

/-- Vehicle form error message. -/
def msgModelLength : String := "Model must be at least 2 characters"

/-- Vehicle form error message. -/
def msgColorRequired : String := "Color is required"

/-- Vehicle form error message. -/
def msgYearRequired : String := "Registration year is required"

/-- Vehicle form error message (the source interpolates the current year
into the text). -/
def msgYearInvalid : String :=
  "Please enter a valid year between 1900 and the current year plus one"

/-- Fields of the vehicle form; every input value is a string. -/
structure VehicleFormData where
  vehicle_vin : String
  model : String
  color : String
  registration_year : String
  driver_id : String

/-- VehicleForm validateForm, VIN field: required, and trimmed length
between 11 and 17 characters. -/
def vehicleVinError (f : VehicleFormData) : Option String :=
  if !(isRequired f.vehicle_vin) then some msgVinRequired
  else if decide ((trimList f.vehicle_vin.toList).length < 11)
      || decide (17 < (trimList f.vehicle_vin.toList).length) then some msgVinLength
  else none

/-- VehicleForm validateForm, model field. -/
def vehicleModelError (f : VehicleFormData) : Option String :=
  if !(isRequired f.model) then some msgModelRequired
  else if decide ((trimList f.model.toList).length < 2) then some msgModelLength
  else none

/-- VehicleForm validateForm, color field. -/
def vehicleColorError (f : VehicleFormData) : Option String :=
  if !(isRequired f.color) then some msgColorRequired else none

/-- VehicleForm validateForm, registration-year field; the current year is
a parameter, since the source reads the clock for the default bounds of
isValidYear. -/
def vehicleYearError (f : VehicleFormData) (currentYear : Int) : Option String :=
  if !(isRequired f.registration_year) then some msgYearRequired
  else if !(isValidYear f.registration_year 1900 (currentYear + 1)) then some msgYearInvalid
  else none

/-- VehicleForm validateForm, driver field. -/
def vehicleDriverError (f : VehicleFormData) : Option String :=
  if f.driver_id = "" then some msgDriverRequired else none

/-- VehicleForm validateForm: true exactly when no field recorded an
error. -/
def vehicleValidateForm (f : VehicleFormData) (currentYear : Int) : Bool :=
  (vehicleVinError f).isNone && (vehicleModelError f).isNone &&
    (vehicleColorError f).isNone && (vehicleYearError f currentYear).isNone &&
    (vehicleDriverError f).isNone

/-- VehicleForm handleSubmit: the create or update call is issued only
when validateForm succeeds. -/
def vehicleHandleSubmit (f : VehicleFormData) (currentYear : Int) : Option VehicleFormData :=
  if vehicleValidateForm f currentYear then some f else none

/-- Raw backend message used in the counterexamples below. -/
def sampleFkMsg : String := "violates foreign key constraint"

/-- Exponential-notation amount used in the counterexamples below. -/
def sampleExpAmount : String := "1e-7"

/-- Spec-side predicate, following the words of the specification for
comparison with isValidRating: the input denotes an integer in [1, 5]
under the Number coercion. -/
def denotesIntegerRating (s : String) : Bool :=
  match jsToNumber s with
  | some q => decide (q.den = 1) && decide (1 ≤ q) && decide (q ≤ 5)
  | none => false

/-- Spec-side predicate, following the words of the specification for the
amount invariant: a decimal number with at most two fractional digits,
that is, multiplying by 100 clears the denominator. -/
def specFracDigitsLe2 (q : ℚ) : Prop := (q * 100).den = 1

/-- The string contains no exponent marker. -/
def noExpMarker (s : String) : Bool :=
  decide ('e' ∉ s.toList) && decide ('E' ∉ s.toList)

/-- The lowercased message mentions a foreign key or a constraint (the
guard of the rewrite branch of formatForeignKeyError). -/
def hasConstraintKeyword (s : String) : Bool :=
  occursIn kwForeignKey (lowerChars s) || occursIn kwConstraint (lowerChars s)

/-- The lowercased message mentions a unique or duplicate value. -/
def hasUniqueKeyword (s : String) : Bool :=
  occursIn kwUnique (lowerChars s) || occursIn kwDuplicate (lowerChars s)

/-- The six fixed guidance messages of the constraint branch of
formatForeignKeyError. -/
def constraintMessages : List String :=
  [msgDeleteCustomer, msgDeleteDriver, msgDeleteVehicle, msgDeleteLocation,
    msgDeleteRide, msgDeleteGeneric]

/-- Non-integer rating input used in the counterexample below. -/
def sampleBadRating : String := "1.5"

/-- Error message free of constraint keywords, used in a witness below. -/
def sampleNotFoundMsg : String := "Customer not found"

/-- Axios failure carrying a constraint-violation response. -/
def sampleFkFailure : AxiosFailure := ⟨some ⟨500, some sampleFkMsg, none⟩, true, ""⟩

/-- Axios failure of a timed-out request: no response arrived. -/
def sampleTimeoutFailure : AxiosFailure := ⟨none, true, "timeout of 10000ms exceeded"⟩

/-- Well-formed payment submission used in the witness below. -/
def samplePayment : PaymentFormData := ⟨"1", "12.34", "Cash", "Pending", "2024-01-01"⟩

/-- Payment submission whose amount is in exponential notation. -/
def sampleExpPayment : PaymentFormData := ⟨"1", sampleExpAmount, "Cash", "Pending", "2024-01-01"⟩

/-- Ride submission whose pickup and dropoff locations coincide. -/
def sampleSameLocRide : RideFormData :=
  ⟨"1", "2", "VIN123456789", "3", "3", "2024-01-01T08:00", "2024-01-01T09:00"⟩

/-- Vehicle submission whose VIN is shorter than 11 characters. -/
def sampleShortVinVehicle : VehicleFormData := ⟨"SHORTVIN", "Toyota Camry", "Black", "2020", "1"⟩

/-! Lemmas about date comparison. -/

lemma jsDateParse_empty : jsDateParse ("") = none := by decide

lemma isAfter_iff (a b : String) :
    isAfter a b = true ↔
      ∃ ta tb, jsDateParse a = some ta ∧ jsDateParse b = some tb ∧ ta < tb := by
  constructor
  · intro h
    unfold isAfter at h
    split at h
    · simp at h
    · split at h
      · rename_i ts te hts hte
        exact ⟨ts, te, hts, hte, by simpa using h⟩
      · simp at h
  · rintro ⟨ta, tb, h1, h2, h3⟩
    have ha : ¬ (a = "") := by
      intro e
      rw [e, jsDateParse_empty] at h1
      cases h1
    have hb : ¬ (b = "") := by
      intro e
      rw [e, jsDateParse_empty] at h2
      cases h2
    unfold isAfter
    rw [if_neg (by simp [ha, hb]), h1, h2]
    simpa using h3

lemma isAfter_irrefl (a : String) : isAfter a a = false := by
  unfold isAfter
  split
  · rfl
  · split
    · rename_i ts te hts hte
      rw [hts] at hte
      have h : ts = te := Option.some.inj hte
      subst h
      simp
    · rfl

/-- C4: isAfter implements strict datetime ordering: it is true exactly
when both datetimes parse and the end is strictly later than the start,
so equal datetimes give false, in particular at 2024-01-01T08:00. -/
theorem isAfter_strict_order :
    (∀ a b : String, isAfter a b = true ↔
        ∃ ta tb, jsDateParse a = some ta ∧ jsDateParse b = some tb ∧ ta < tb) ∧
    (∀ a : String, isAfter a a = false) ∧
    isAfter ("2024-01-01T08:00") ("2024-01-01T08:00") = false :=
  ⟨isAfter_iff, isAfter_irrefl, isAfter_irrefl ("2024-01-01T08:00")⟩

/-- Witness for C4 at concrete distinct datetimes one hour apart. -/
theorem isAfter_strict_order_witness :
    isAfter ("2024-01-01T08:00") ("2024-01-01T09:00") = true :=
  (isAfter_strict_order.1 ("2024-01-01T08:00") ("2024-01-01T09:00")).mpr
    ⟨1704096000, 1704099600, by decide, by decide, by decide⟩

/-! Lemmas about the ride form. -/

lemma rideValidateForm_spec {f : RideFormData} (h : rideValidateForm f = true) :
    f.pickup_location ≠ f.dropoff_location ∧ isAfter f.start_time f.arrival_time = true := by
  unfold rideValidateForm at h
  simp only [Bool.and_eq_true, Option.isNone_iff_eq_none] at h
  obtain ⟨⟨⟨⟨⟨⟨h1, h2⟩, h3⟩, h4⟩, h5⟩, h6⟩, h7⟩ := h
  refine ⟨?_, ?_⟩
  · intro e
    unfold rideDropoffError at h5
    by_cases hd : f.dropoff_location = ""
    · rw [if_pos hd] at h5
      simp at h5
    · rw [if_neg hd, if_pos e] at h5
      simp at h5
  · unfold rideArrivalError at h7
    by_cases hA : isAfter f.start_time f.arrival_time = true
    · exact hA
    · exfalso
      by_cases hr : isRequired f.arrival_time = true
      · rw [if_neg (by simp [hr]), if_pos (by simp [hA])] at h7
        simp at h7
      · rw [if_pos (by simp [hr])] at h7
        simp at h7

/-- C5: the ride form blocks submission whenever the pickup location
equals the dropoff location or the arrival time is not strictly after the
start time, and conversely every issued create/update call carries
distinct locations and an arrival strictly after the start. -/
theorem ride_form_blocks_invalid :
    (∀ f : RideFormData,
        (f.pickup_location = f.dropoff_location ∨
            ¬ ∃ ta tb, jsDateParse f.start_time = some ta ∧
              jsDateParse f.arrival_time = some tb ∧ ta < tb) →
          rideValidateForm f = false ∧ rideHandleSubmit f = none) ∧
    (∀ f g : RideFormData, rideHandleSubmit f = some g →
        g = f ∧ f.pickup_location ≠ f.dropoff_location ∧
          ∃ ta tb, jsDateParse f.start_time = some ta ∧
            jsDateParse f.arrival_time = some tb ∧ ta < tb) := by
  constructor
  · intro f h
    cases hv : rideValidateForm f with
    | false => exact ⟨rfl, by simp [rideHandleSubmit, hv]⟩
    | true =>
      exfalso
      obtain ⟨hne, hA⟩ := rideValidateForm_spec hv
      rcases h with h | h
      · exact hne h
      · exact h ((isAfter_iff _ _).mp hA)
  · intro f g hs
    unfold rideHandleSubmit at hs
    split at hs
    · rename_i hv
      obtain ⟨hne, hA⟩ := rideValidateForm_spec hv
      exact ⟨(Option.some.inj hs).symm, hne, (isAfter_iff _ _).mp hA⟩
    · cases hs

/-- Witness for C5: a ride whose pickup equals its dropoff is blocked. -/
theorem ride_form_blocks_invalid_witness :
    rideValidateForm sampleSameLocRide = false ∧ rideHandleSubmit sampleSameLocRide = none :=
  ride_form_blocks_invalid.1 sampleSameLocRide (Or.inl rfl)

/-! Lemmas about the vehicle form. -/

lemma vehicleVinError_none {f : VehicleFormData} (h : vehicleVinError f = none) :
    11 ≤ (trimList f.vehicle_vin.toList).length ∧
      (trimList f.vehicle_vin.toList).length ≤ 17 := by
  unfold vehicleVinError at h
  by_cases hr : isRequired f.vehicle_vin = true
  · rw [if_neg (by simp [hr])] at h
    split at h
    · exact Option.noConfusion h
    · rename_i hlen
      simp only [Bool.or_eq_true, decide_eq_true_eq] at hlen
      omega
  · rw [if_pos (by simp [hr])] at h
    exact Option.noConfusion h

/-- C10: the vehicle form accepts a VIN only when its trimmed length is
between 11 and 17 characters inclusive; any shorter or longer VIN records
an error and blocks the create/update call. -/
theorem vehicle_vin_length_gate :
    (∀ (f : VehicleFormData) (cy : Int),
        ((trimList f.vehicle_vin.toList).length < 11 ∨
            17 < (trimList f.vehicle_vin.toList).length) →
          vehicleVinError f ≠ none ∧ vehicleValidateForm f cy = false ∧
            vehicleHandleSubmit f cy = none) ∧
    (∀ (f : VehicleFormData) (cy : Int), vehicleValidateForm f cy = true →
        11 ≤ (trimList f.vehicle_vin.toList).length ∧
          (trimList f.vehicle_vin.toList).length ≤ 17) := by
  have key : ∀ f : VehicleFormData,
      ((trimList f.vehicle_vin.toList).length < 11 ∨
        17 < (trimList f.vehicle_vin.toList).length) → vehicleVinError f ≠ none := by
    intro f hlen he
    obtain ⟨h1, h2⟩ := vehicleVinError_none he
    omega
  constructor
  · intro f cy hlen
    have hv : vehicleVinError f ≠ none := key f hlen
    have hval : vehicleValidateForm f cy = false := by
      cases h : vehicleValidateForm f cy with
      | false => rfl
      | true =>
        exfalso
        unfold vehicleValidateForm at h
        simp only [Bool.and_eq_true, Option.isNone_iff_eq_none] at h
        exact hv h.1.1.1.1
    exact ⟨hv, hval, by simp [vehicleHandleSubmit, hval]⟩
  · intro f cy h
    unfold vehicleValidateForm at h
    simp only [Bool.and_eq_true, Option.isNone_iff_eq_none] at h
    exact vehicleVinError_none h.1.1.1.1

/-- Witness for C10: an 8-character VIN is rejected and blocked. -/
theorem vehicle_vin_length_gate_witness :
    vehicleVinError sampleShortVinVehicle ≠ none ∧
      vehicleValidateForm sampleShortVinVehicle 2025 = false ∧
      vehicleHandleSubmit sampleShortVinVehicle 2025 = none :=
  vehicle_vin_length_gate.1 sampleShortVinVehicle 2025 (Or.inl (by decide))

/-- C7: the axios client has a fixed 10-second timeout, and every failure
with no server response (timeouts and network failures) is rejected with
the fixed generic network-error message and status 0, independent of the
underlying failure, so no internals reach the caller. -/
theorem network_error_reported_generically :
    apiTimeoutMs = 10000 ∧
    ∀ e : AxiosFailure, e.response = none → e.hasRequest = true →
      interceptReject e = ⟨msgNetworkError, 0, none⟩ := by
  refine ⟨rfl, fun e h1 h2 => ?_⟩
  unfold interceptReject
  rw [h1]
  simp [h2]

/-- Witness for C7 at a timed-out request. -/
theorem network_error_reported_generically_witness :
    interceptReject sampleTimeoutFailure = ⟨msgNetworkError, 0, none⟩ :=
  network_error_reported_generically.2 sampleTimeoutFailure rfl rfl

/-! Lemmas about ratings. -/

lemma isValidRating_iff (s : String) :
    isValidRating s = true ↔
      isValidNumber s = true ∧ ∃ n, jsParseInt s = some n ∧ 1 ≤ n ∧ n ≤ 5 := by
  unfold isValidRating
  by_cases hv : isValidNumber s = true
  · rw [if_neg (by simp [hv])]
    cases hp : jsParseInt s with
    | none => simp [hv, hp]
    | some n => simp [hv, hp]
  · rw [if_pos (by simp [hv])]
    simp [hv]

/-- C1 (amended): isValidRating is true exactly when the input is a valid
number whose parseInt value lies in [1, 5]; on the stated samples,
isValidRating of 0 is false, of 5 is true and of 6 is false.  Since
parseInt truncates at the decimal point, acceptance is not equivalent to
denoting an integer in [1, 5]. -/
theorem isValidRating_parseInt_spec :
    (∀ s : String, isValidRating s = true ↔
        isValidNumber s = true ∧ ∃ n, jsParseInt s = some n ∧ 1 ≤ n ∧ n ≤ 5) ∧
    isValidRating ("0") = false ∧ isValidRating ("5") = true ∧ isValidRating ("6") = false :=
  ⟨isValidRating_iff, by decide, by decide, by decide⟩

/-- Witness for C1 at the accepted rating 3. -/
theorem isValidRating_parseInt_spec_witness : isValidRating ("3") = true :=
  (isValidRating_parseInt_spec.1 ("3")).mpr ⟨by decide, 3, by decide, by decide, by decide⟩

/-- Counterexample for C1 as stated: the input 1.5 does not denote an
integer in [1, 5], yet isValidRating accepts it, because parseInt
truncates at the decimal point. -/
theorem isValidRating_noninteger_accepted :
    isValidRating sampleBadRating = true ∧ denotesIntegerRating sampleBadRating = false :=
  ⟨by decide, by decide⟩

/-! Lemmas about decimal-digit bounds. -/

lemma expAmount_times_100 : mkRat 1 10000000 * 100 = mkRat 1 100000 := by
  rw [Rat.mkRat_eq_div 1 10000000, Rat.mkRat_eq_div 1 100000]
  norm_num

lemma expAmount_many_fracdigits : ¬ specFracDigitsLe2 (mkRat 1 10000000) := by
  unfold specFracDigitsLe2
  rw [expAmount_times_100]
  decide

/-- C9: the input 1e-7 is a positive number with seven fractional digits,
its rendering uses exponential notation and contains no decimal point,
and hasValidDecimals with bound 2 accepts it, because the check only
inspects the rendering for a decimal point. -/
theorem hasValidDecimals_exponential_gap :
    hasValidDecimalsV (.vnum sampleExpAmount) 2 = true ∧
    isValidPositiveNumberV (.vnum sampleExpAmount) = true ∧
    jsToNumber sampleExpAmount = some (mkRat 1 10000000) ∧
    ¬ specFracDigitsLe2 (mkRat 1 10000000) ∧
    afterFirstDot sampleExpAmount.toList = none :=
  ⟨by decide, by decide, by decide, expAmount_many_fracdigits, by decide⟩

/-- Counterexample for C2 as stated: the payment form accepts the amount
1e-7, whose value has seven fractional digits. -/
theorem payment_accepts_exponential_amount :
    paymentValidateForm sampleExpPayment = true ∧
    jsParseFloat sampleExpPayment.amount = some (mkRat 1 10000000) ∧
    ¬ specFracDigitsLe2 (mkRat 1 10000000) :=
  ⟨by decide, by decide, expAmount_many_fracdigits⟩

/-- C3 (amended): every numeric predicate and isAfter returns a boolean on
every string-or-number input, and isValidEmail and isValidPhoneNumber
return a boolean on every string input, but throw a TypeError on every
truthy number input, because numbers have no trim or replace method. -/
theorem validators_total_amended :
    (∀ v : JSVal, isValidNumberV v = true ∨ isValidNumberV v = false) ∧
    (∀ v : JSVal, isValidPositiveNumberV v = true ∨ isValidPositiveNumberV v = false) ∧
    (∀ v : JSVal, hasValidDecimalsV v 2 = true ∨ hasValidDecimalsV v 2 = false) ∧
    (∀ (v : JSVal) (mn mx : Int), isValidYearV v mn mx = true ∨ isValidYearV v mn mx = false) ∧
    (∀ v : JSVal, isValidRatingV v = true ∨ isValidRatingV v = false) ∧
    (∀ a b : JSVal, isAfterV a b = true ∨ isAfterV a b = false) ∧
    (∀ s : String, isValidEmailV (.vstr s) = .ok (isValidEmail s)) ∧
    (∀ s : String, isValidPhoneNumberV (.vstr s) = .ok (isValidPhoneNumber s)) ∧
    (∀ r : String, jsFalsyVal (.vnum r) = false →
      isValidEmailV (.vnum r) = .error trimTypeErrorMsg ∧
      isValidPhoneNumberV (.vnum r) = .error replaceTypeErrorMsg) := by
  refine ⟨fun v => Bool.eq_false_or_eq_true _, fun v => Bool.eq_false_or_eq_true _,
    fun v => Bool.eq_false_or_eq_true _, fun v mn mx => Bool.eq_false_or_eq_true _,
    fun v => Bool.eq_false_or_eq_true _, fun a b => Bool.eq_false_or_eq_true _,
    fun s => rfl, fun s => rfl, fun r hr => ?_⟩
  have hg : (r = "0" || r = "NaN") = false := by simpa [jsFalsyVal] using hr
  constructor
  · simp [isValidEmailV, hg]
  · simp [isValidPhoneNumberV, hg]

/-- Witness for C3: the number 5 throws in both string predicates. -/
theorem validators_total_amended_witness :
    isValidEmailV (.vnum ("5")) = .error trimTypeErrorMsg ∧
      isValidPhoneNumberV (.vnum ("5")) = .error replaceTypeErrorMsg :=
  validators_total_amended.2.2.2.2.2.2.2.2 ("5") (by decide)

/-- Counterexample for C3 as stated: isValidEmail on the number 5 throws a
TypeError instead of returning a boolean. -/
theorem isValidEmail_throws_on_number :
    isValidEmailV (.vnum ("5")) = .error trimTypeErrorMsg := rfl

/-! Lemmas about error formatting. -/

lemma formatForeignKeyError_ne_empty (s : String) : formatForeignKeyError s ≠ "" := by
  unfold formatForeignKeyError
  split
  · decide
  · rename_i hs
    split
    · split
      · decide
      · split
        · decide
        · split
          · decide
          · split
            · decide
            · split
              · decide
              · decide
    · split
      · decide
      · exact hs

lemma errDataMsg_ne_empty (d : RespData) : errDataMsg d ≠ "" := by
  unfold errDataMsg
  split
  · split
    · exact formatForeignKeyError_ne_empty _
    · decide
  · decide

lemma errObjRest_ne_empty (o : ErrObj) : errObjRest o ≠ "" := by
  unfold errObjRest
  split
  · split
    · split
      · split
        · exact formatForeignKeyError_ne_empty _
        · exact errDataMsg_ne_empty _
      · exact errDataMsg_ne_empty _
    · decide
  · decide

lemma getErrorMessage_ne_empty (e : JSErrVal) : getErrorMessage e ≠ "" := by
  cases e with
  | jnull => decide
  | jstr s =>
    show (if s = "" then msgUnexpectedError else formatForeignKeyError s) ≠ ""
    split
    · decide
    · exact formatForeignKeyError_ne_empty s
  | jobj o =>
    show (match o.message with
      | some m => if !(m = "") then formatForeignKeyError m else errObjRest o
      | none => errObjRest o) ≠ ""
    split
    · split
      · exact formatForeignKeyError_ne_empty _
      · exact errObjRest_ne_empty o
    · exact errObjRest_ne_empty o

/-- C8: getErrorMessage returns a nonempty string on every input shape,
and falls back to the fixed unexpected-error message on null and on
objects with no recognized member. -/
theorem getErrorMessage_total_spec :
    (∀ e : JSErrVal, getErrorMessage e ≠ "") ∧
    getErrorMessage .jnull = msgUnexpectedError ∧
    (∀ o : ErrObj, o.message = none → o.response = none →
      getErrorMessage (.jobj o) = msgUnexpectedError) := by
  refine ⟨getErrorMessage_ne_empty, rfl, fun o h1 h2 => ?_⟩
  simp [getErrorMessage, h1, errObjRest, h2]

/-- Witness for C8 at an empty object and a string error. -/
theorem getErrorMessage_total_spec_witness :
    getErrorMessage (.jobj ⟨none, none⟩) = msgUnexpectedError ∧
      getErrorMessage (.jstr sampleFkMsg) ≠ "" :=
  ⟨getErrorMessage_total_spec.2.2 ⟨none, none⟩ rfl rfl,
    getErrorMessage_total_spec.1 (.jstr sampleFkMsg)⟩

/-- C6 (amended): messages mentioning constraint or duplicate keywords are
rewritten to fixed guidance messages; every other error string passes
through formatForeignKeyError, and hence getErrorMessage, verbatim. -/
theorem formatForeignKeyError_spec :
    (∀ s : String, s ≠ "" → hasConstraintKeyword s = false → hasUniqueKeyword s = false →
        formatForeignKeyError s = s ∧ getErrorMessage (.jobj ⟨some s, none⟩) = s) ∧
    (∀ s : String, hasConstraintKeyword s = true →
        formatForeignKeyError s ∈ constraintMessages) ∧
    (∀ s : String, hasConstraintKeyword s = false → hasUniqueKeyword s = true →
        formatForeignKeyError s = msgDuplicateValue) := by
  have hfk : ∀ s : String, s ≠ "" → hasConstraintKeyword s = false → hasUniqueKeyword s = false →
      formatForeignKeyError s = s := by
    intro s h1 h2 h3
    unfold hasConstraintKeyword at h2
    unfold hasUniqueKeyword at h3
    unfold formatForeignKeyError
    rw [if_neg h1, if_neg (by simp [h2]), if_neg (by simp [h3])]
  refine ⟨fun s h1 h2 h3 => ⟨hfk s h1 h2 h3, ?_⟩, ?_, ?_⟩
  · simp [getErrorMessage, h1, hfk s h1 h2 h3]
  · intro s hc
    by_cases h1 : s = ""
    · rw [h1] at hc
      exact absurd hc (by decide)
    · unfold formatForeignKeyError
      rw [if_neg h1, if_pos (by unfold hasConstraintKeyword at hc; simp [hc])]
      split
      · simp [constraintMessages]
      · split
        · simp [constraintMessages]
        · split
          · simp [constraintMessages]
          · split
            · simp [constraintMessages]
            · split
              · simp [constraintMessages]
              · simp [constraintMessages]
  · intro s h2 h3
    by_cases h1 : s = ""
    · rw [h1] at h3
      exact absurd h3 (by decide)
    · unfold formatForeignKeyError
      rw [if_neg h1, if_neg (by unfold hasConstraintKeyword at h2; simp [h2]),
        if_pos (by unfold hasUniqueKeyword at h3; simp [h3])]

/-- Witness for C6 at a keyword-free message and a constraint message. -/
theorem formatForeignKeyError_spec_witness :
    formatForeignKeyError sampleNotFoundMsg = sampleNotFoundMsg ∧
      formatForeignKeyError sampleFkMsg ∈ constraintMessages :=
  ⟨(formatForeignKeyError_spec.1 sampleNotFoundMsg (by decide) (by decide) (by decide)).1,
    formatForeignKeyError_spec.2.1 sampleFkMsg (by decide)⟩

/-- Counterexample for C6 as stated: a foreign-key violation message is
rewritten on its way to the caller, not reported verbatim. -/
theorem constraint_error_not_verbatim :
    getErrorMessage (.jobj ⟨some (interceptReject sampleFkFailure).message, none⟩)
      ≠ (interceptReject sampleFkFailure).message := by decide

/-! Decomposition lemmas for the decimal parser, used to bound the
fractional digits of an accepted payment amount. -/

lemma splitSign_decomp (cs : List Char) :
    ∃ sgn, cs = sgn ++ (splitSign cs).2 ∧ ∀ c ∈ sgn, c = '-' ∨ c = '+' := by
  cases cs with
  | nil => exact ⟨[], rfl, by simp⟩
  | cons c r =>
    unfold splitSign
    by_cases h1 : c = '-'
    · refine ⟨[c], by simp [h1], ?_⟩
      intro x hx
      simp at hx
      subst hx
      exact Or.inl h1
    · by_cases h2 : c = '+'
      · refine ⟨[c], by simp [h1, h2], ?_⟩
        intro x hx
        simp at hx
        subst hx
        exact Or.inr h2
      · exact ⟨[], by simp [h1, h2], by simp⟩

lemma tryParseExp_decomp (ts : List Char) :
    ∃ ec, ts = ec ++ (tryParseExp ts).2 ∧
      ((tryParseExp ts).1 = none → ec = []) ∧
      (∀ pe, (tryParseExp ts).1 = some pe → ∃ c, c ∈ ec ∧ (c = 'e' ∨ c = 'E')) := by
  cases ts with
  | nil => exact ⟨[], rfl, fun _ => rfl, fun pe hpe => by simp [tryParseExp] at hpe⟩
  | cons c r =>
    by_cases hc : (c = 'e' || c = 'E') = true
    · by_cases he : (splitSign r).2.takeWhile Char.isDigit = []
      · refine ⟨[], ?_, fun _ => rfl, ?_⟩
        · simp [tryParseExp, hc, he]
        · intro pe hpe
          simp [tryParseExp, hc, he] at hpe
      · obtain ⟨sgn2, hr, hsgn2⟩ := splitSign_decomp r
        have hval : tryParseExp (c :: r) =
            (some ((splitSign r).1, (splitSign r).2.takeWhile Char.isDigit),
              (splitSign r).2.dropWhile Char.isDigit) := by
          simp [tryParseExp, hc, he]
        rw [hval]
        refine ⟨c :: (sgn2 ++ (splitSign r).2.takeWhile Char.isDigit), ?_, ?_, ?_⟩
        · rw [List.cons_append]
          congr 1
          rw [List.append_assoc, List.takeWhile_append_dropWhile]
          exact hr
        · intro hnone
          exact Option.noConfusion hnone
        · intro pe hpe
          refine ⟨c, List.mem_cons_self _ _, ?_⟩
          simpa using hc
    · refine ⟨[], ?_, fun _ => rfl, ?_⟩
      · simp [tryParseExp, hc]
      · intro pe hpe
        simp [tryParseExp, hc] at hpe

lemma parseDecHead_decomp {cs rest : List Char} {d : DecLit}
    (h : parseDecHead cs = some (d, rest)) :
    ∃ sgn expc,
      cs = sgn ++ d.intDigits ++ (if d.hasDot then '.' :: d.fracDigits else []) ++
        expc ++ rest ∧
      (∀ c ∈ sgn, c = '-' ∨ c = '+') ∧
      (∀ c ∈ d.intDigits, c.isDigit = true) ∧
      (d.expPart = none → expc = []) ∧
      (∀ pe, d.expPart = some pe → ∃ c, c ∈ expc ∧ (c = 'e' ∨ c = 'E')) ∧
      (d.hasDot = false → d.fracDigits = []) := by
  obtain ⟨sgn, hcs, hsgn⟩ := splitSign_decomp cs
  have hipd : ∀ c ∈ (splitSign cs).2.takeWhile Char.isDigit, c.isDigit = true :=
    fun c hc => List.mem_takeWhile_imp hc
  simp only [parseDecHead] at h
  cases hrest : (splitSign cs).2.dropWhile Char.isDigit with
  | nil =>
    rw [hrest] at h
    simp only [] at h
    split at h
    · exact Option.noConfusion h
    · have hd := Option.some.inj h
      obtain ⟨hd1, hd2⟩ := Prod.mk.injEq .. |>.mp hd
      subst hd1
      subst hd2
      refine ⟨sgn, [], ?_, hsgn, hipd, fun _ => rfl, ?_, fun _ => rfl⟩
      · have heq : (splitSign cs).2 = (splitSign cs).2.takeWhile Char.isDigit := by
          conv_lhs => rw [← List.takeWhile_append_dropWhile Char.isDigit (splitSign cs).2]
          rw [hrest]
          simp
        conv_lhs => rw [hcs]
        conv_lhs => rw [heq]
        simp
      · intro pe hpe
        exact Option.noConfusion hpe
  | cons c r2 =>
    rw [hrest] at h
    simp only [] at h
    by_cases hcdot : c = '.'
    · rw [if_pos hcdot] at h
      split at h
      · exact Option.noConfusion h
      · have hd := Option.some.inj h
        obtain ⟨hd1, hd2⟩ := Prod.mk.injEq .. |>.mp hd
        subst hd1
        subst hd2
        obtain ⟨ec, hec, hecnone, hecsome⟩ := tryParseExp_decomp (r2.dropWhile Char.isDigit)
        refine ⟨sgn, ec, ?_, hsgn, hipd, ?_, ?_, ?_⟩
        · subst hcdot
          have hr2 : r2 = r2.takeWhile Char.isDigit ++
              (ec ++ (tryParseExp (r2.dropWhile Char.isDigit)).2) := by
            conv_lhs => rw [← List.takeWhile_append_dropWhile Char.isDigit r2]
            conv_lhs => rw [hec]
          have hstep : (splitSign cs).2 = (splitSign cs).2.takeWhile Char.isDigit ++
              ('.' :: r2) := by
            conv_lhs => rw [← List.takeWhile_append_dropWhile Char.isDigit (splitSign cs).2]
            rw [hrest]
          conv_lhs => rw [hcs]
          conv_lhs => rw [hstep]
          conv_lhs => rw [hr2]
          simp [List.append_assoc]
        · exact hecnone
        · exact hecsome
        · intro hfalse
          exact Bool.noConfusion hfalse
    · rw [if_neg hcdot] at h
      split at h
      · exact Option.noConfusion h
      · have hd := Option.some.inj h
        obtain ⟨hd1, hd2⟩ := Prod.mk.injEq .. |>.mp hd
        subst hd1
        subst hd2
        obtain ⟨ec, hec, hecnone, hecsome⟩ := tryParseExp_decomp (c :: r2)
        refine ⟨sgn, ec, ?_, hsgn, hipd, ?_, ?_, fun _ => rfl⟩
        · have hstep : (splitSign cs).2 = (splitSign cs).2.takeWhile Char.isDigit ++
              (c :: r2) := by
            conv_lhs => rw [← List.takeWhile_append_dropWhile Char.isDigit (splitSign cs).2]
            rw [hrest]
          conv_lhs => rw [hcs]
          conv_lhs => rw [hstep]
          conv_lhs => rw [hec]
          simp [List.append_assoc]
        · exact hecnone
        · exact hecsome

lemma afterFirstDot_append {xs ys : List Char} (h : ∀ c ∈ xs, ¬ c = '.') :
    afterFirstDot (xs ++ ys) = afterFirstDot ys := by
  induction xs with
  | nil => rfl
  | cons c r ih =>
    rw [List.cons_append]
    show (if c = '.' then some (r ++ ys) else afterFirstDot (r ++ ys)) = afterFirstDot ys
    rw [if_neg (h c (List.mem_cons_self _ _))]
    exact ih (fun x hx => h x (List.mem_cons_of_mem _ hx))

lemma afterFirstDot_cons_dot (t : List Char) : afterFirstDot ('.' :: t) = some t := by
  unfold afterFirstDot
  rw [if_pos rfl]

lemma isJsWS_ne_dot {c : Char} (h : isJsWS c = true) : ¬ c = '.' := by
  intro e
  subst e
  exact absurd h (by decide)

lemma isDigit_ne_dot {c : Char} (h : c.isDigit = true) : ¬ c = '.' := by
  intro e
  subst e
  exact absurd h (by decide)

lemma sign_ne_dot {c : Char} (h : c = '-' ∨ c = '+') : ¬ c = '.' := by
  rcases h with h | h <;> (subst h; decide)

lemma mkRat_pow_den (n : Int) {k : Nat} (hk : k ≤ 2) :
    (mkRat n (10 ^ k) * 100 : ℚ).den = 1 := by
  have h10 : ((10 : ℚ)) ^ k ≠ 0 := by positivity
  have key : (mkRat n (10 ^ k) * 100 : ℚ) = ((n * 10 ^ (2 - k) : Int) : ℚ) := by
    rw [Rat.mkRat_eq_div n (10 ^ k)]
    push_cast
    rw [div_mul_eq_mul_div, div_eq_iff h10, mul_assoc, ← pow_add]
    have he2 : 2 - k + k = 2 := by omega
    rw [he2]
    norm_num
  rw [key, Rat.den_intCast]

lemma DecLit.exp_none {d : DecLit} (he : d.expPart = none) : d.exp = 0 := by
  unfold DecLit.exp
  rw [he]

lemma DecLit.val_fracdigits_le2 {d : DecLit} (he : d.expPart = none)
    (hk : d.fracDigits.length ≤ 2) : specFracDigitsLe2 d.val := by
  unfold specFracDigitsLe2
  simp only [DecLit.val, DecLit.exp_none he, Int.toNat_zero, neg_zero, pow_zero, mul_one,
    Nat.add_zero]
  exact mkRat_pow_den _ hk

lemma hasValidDecimals_bound {s : String} {ds : List Char}
    (h : hasValidDecimals s 2 = true) (hd : afterFirstDot s.toList = some ds) :
    ds.length ≤ 2 := by
  unfold hasValidDecimals at h
  split at h
  · simp at h
  · rw [hd] at h
    simpa using h

lemma paymentAmount_checks {f : PaymentFormData} (h : paymentValidateForm f = true) :
    isValidPositiveNumber f.amount = true ∧ hasValidDecimals f.amount 2 = true ∧
      amountExceeds f.amount = false := by
  unfold paymentValidateForm at h
  simp only [Bool.and_eq_true, Option.isNone_iff_eq_none] at h
  obtain ⟨⟨⟨⟨h1, h2⟩, h3⟩, h4⟩, h5⟩ := h
  unfold paymentAmountError at h2
  by_cases hr : isRequired f.amount = true
  · rw [if_neg (by simp [hr])] at h2
    by_cases hp : isValidPositiveNumber f.amount = true
    · rw [if_neg (by simp [hp])] at h2
      by_cases hdd : hasValidDecimals f.amount 2 = true
      · rw [if_neg (by simp [hdd])] at h2
        by_cases hx : amountExceeds f.amount = true
        · rw [if_pos hx] at h2
          exact Option.noConfusion h2
        · exact ⟨hp, hdd, by simpa using hx⟩
      · rw [if_pos (by simp [hdd])] at h2
        exact Option.noConfusion h2
    · rw [if_pos (by simp [hp])] at h2
      exact Option.noConfusion h2
  · rw [if_pos (by simp [hr])] at h2
    exact Option.noConfusion h2

lemma isValidPositiveNumber_pos {s : String} (h : isValidPositiveNumber s = true) :
    ∃ q, jsParseFloat s = some q ∧ 0 < q := by
  unfold isValidPositiveNumber at h
  rw [Bool.and_eq_true] at h
  obtain ⟨h1, h2⟩ := h
  cases hp : jsParseFloat s with
  | none =>
    rw [hp] at h2
    simp at h2
  | some q =>
    rw [hp] at h2
    simp at h2
    exact ⟨q, rfl, h2⟩

lemma amountExceeds_le {s : String} {q : ℚ} (hp : jsParseFloat s = some q)
    (h : amountExceeds s = false) : q ≤ paymentMaxAmount := by
  unfold amountExceeds at h
  rw [hp] at h
  simp at h
  exact h

lemma accepted_amount_fracdigits {s : String} {q : ℚ}
    (hd2 : hasValidDecimals s 2 = true)
    (hp : jsParseFloat s = some q)
    (hne : noExpMarker s = true) : specFracDigitsLe2 q := by
  simp only [noExpMarker, Bool.and_eq_true, decide_eq_true_eq] at hne
  unfold jsParseFloat at hp
  cases hph : parseDecHead (s.toList.dropWhile isJsWS) with
  | none =>
    rw [hph] at hp
    exact Option.noConfusion hp
  | some dr =>
    obtain ⟨d, rest⟩ := dr
    rw [hph] at hp
    have hq : d.val = q := Option.some.inj hp
    obtain ⟨sgn, expc, hcs, hsgn, hipd, hexpnone, hexpsome, hdotfrac⟩ :=
      parseDecHead_decomp hph
    have hsub : ∀ c, c ∈ s.toList.dropWhile isJsWS → c ∈ s.toList :=
      fun c hc => (List.dropWhile_sublist (p := isJsWS)).mem hc
    have hEnone : d.expPart = none := by
      cases hex : d.expPart with
      | none => rfl
      | some pe =>
        obtain ⟨c, hcm, hcor⟩ := hexpsome pe hex
        have hcmem : c ∈ s.toList := by
          apply hsub
          rw [hcs]
          simp only [List.mem_append]
          exact Or.inl (Or.inr hcm)
        rcases hcor with rfl | rfl
        · exact absurd hcmem hne.1
        · exact absurd hcmem hne.2
    have hexpc : expc = [] := hexpnone hEnone
    by_cases hdot : d.hasDot = true
    · have hw : s.toList = s.toList.takeWhile isJsWS ++ s.toList.dropWhile isJsWS :=
        (List.takeWhile_append_dropWhile _ _).symm
      have hlist : s.toList = (s.toList.takeWhile isJsWS ++ sgn ++ d.intDigits) ++
          ('.' :: (d.fracDigits ++ rest)) := by
        conv_lhs => rw [hw]
        conv_lhs => rw [hcs]
        rw [hexpc, hdot]
        simp [List.append_assoc]
      have hfront : ∀ c ∈ s.toList.takeWhile isJsWS ++ sgn ++ d.intDigits, ¬ c = '.' := by
        intro c hc
        simp only [List.mem_append] at hc
        rcases hc with (hc | hc) | hc
        · exact isJsWS_ne_dot (List.mem_takeWhile_imp hc)
        · exact sign_ne_dot (hsgn c hc)
        · exact isDigit_ne_dot (hipd c hc)
      have hafd : afterFirstDot s.toList = some (d.fracDigits ++ rest) := by
        rw [hlist, afterFirstDot_append hfront, afterFirstDot_cons_dot]
      have hlen : (d.fracDigits ++ rest).length ≤ 2 := hasValidDecimals_bound hd2 hafd
      have hfpe : d.fracDigits.length ≤ 2 := by
        rw [List.length_append] at hlen
        omega
      exact hq ▸ DecLit.val_fracdigits_le2 hEnone hfpe
    · have hfp : d.fracDigits = [] := hdotfrac (by simpa using hdot)
      have hfpe : d.fracDigits.length ≤ 2 := by
        rw [hfp]
        simp
      exact hq ▸ DecLit.val_fracdigits_le2 hEnone hfpe

/-- C2 (amended): every amount the payment form accepts parses to a
positive rational at most 999999.99, and when the amount string is in
plain decimal notation (no exponent marker) its value has at most two
fractional digits.  Amounts in exponential notation can carry more
fractional digits, as the counterexample shows. -/
theorem payment_amount_accepted_spec (f : PaymentFormData)
    (h : paymentValidateForm f = true) :
    ∃ q, jsParseFloat f.amount = some q ∧ 0 < q ∧ q ≤ paymentMaxAmount ∧
      (noExpMarker f.amount = true → specFracDigitsLe2 q) := by
  obtain ⟨hpos, hdec, hexc⟩ := paymentAmount_checks h
  obtain ⟨q, hp, hq⟩ := isValidPositiveNumber_pos hpos
  exact ⟨q, hp, hq, amountExceeds_le hp hexc,
    fun hne => accepted_amount_fracdigits hdec hp hne⟩

/-- Witness for C2 at the accepted plain-decimal amount 12.34. -/
theorem payment_amount_accepted_spec_witness :
    paymentValidateForm samplePayment = true ∧
      ∃ q, jsParseFloat samplePayment.amount = some q ∧ 0 < q ∧ q ≤ paymentMaxAmount ∧
        (noExpMarker samplePayment.amount = true → specFracDigitsLe2 q) :=
  ⟨by decide, payment_amount_accepted_spec samplePayment (by decide)⟩
